import Mathlib

/-!
Verification of the rendering core of the `blok` client
(`src/blok/src/client/graphics`): the OpenGL error collector, the owned GPU
object wrappers (`GlShader`, `GlProgram`, `GlBuffer`), and the two rendering
pipelines (`generic` and `trivial_block`).

The embedding is shallow:

* The OpenGL error queue is a `List Nat` of pending error codes; `glGetError`
  pops the front code, or reports the `NO_ERROR` constant when the queue is
  empty.  The `NO_ERROR` constant itself comes from generated bindings
  (`gl_generator` over the Khronos registry, where `GL_NO_ERROR = 0`); it is
  kept as an explicit parameter `noError` here so theorems state exactly
  which value they rely on.
* GPU-side allocation is a `GlState`: a fresh-name counter plus the list of
  currently allocated handle names.  A `try_gl!`-wrapped OpenGL call is
  modelled with a fault oracle `f : Nat → Bool` indexed by the position of
  the call in the function body: `f k = true` means the error-queue drain
  after the k-th call reported errors, so the enclosing function returns
  early with `Err` (and Rust runs the `Drop`/`defer` handlers).  A faulted
  `glCreate*` call performs no allocation and reports name 0, matching the
  OpenGL rule that a failing call has no side effect and creation functions
  report zero on failure.
* Per-frame rendering is modelled as the trace (`List GlCall`) of OpenGL
  calls a `render` invocation issues when every call succeeds.  Matrix
  arithmetic (glam `Mat4`, `f32`) is kept symbolic in the inductive `Mat`:
  the trace records which matrix expression the code computed and bound,
  which is exactly what the specification constrains.  Integer-to-`f32`
  conversions (atlas sizes, chunk translations) are recorded as the original
  integers.
-/

/-! ## OpenGL registry constants (Khronos registry values, GL 4.5 core) -/

def GL_TRIANGLES : Nat := 0x0004

def GL_TRIANGLE_FAN : Nat := 0x0006

def GL_CULL_FACE : Nat := 0x0B44

def GL_BACK : Nat := 0x0405

def GL_CCW : Nat := 0x0901

def GL_ELEMENT_ARRAY_BUFFER : Nat := 0x8893

def GL_UNSIGNED_BYTE : Nat := 0x1401

def GL_UNSIGNED_SHORT : Nat := 0x1403

def GL_UNSIGNED_INT : Nat := 0x1405

def GL_FLOAT : Nat := 0x1406

def GL_INVALID_ENUM : Nat := 0x0500

def GL_INVALID_VALUE : Nat := 0x0501

def GL_INVALID_OPERATION : Nat := 0x0502

/-! ## GPU error collector (`gl_error.rs`, `GlErrors::get_gl_errors`)

The function drains the error queue with repeated `glGetError` calls:
it breaks when the query reports `NO_ERROR`, panics when the query reports
the literal 0 (the value the OpenGL reference gives for a failing `glGetError`),
and otherwise pushes the code onto the collected list.  It returns `Ok`
when nothing was collected and `Err` with the collected codes otherwise. -/

/-- Outcome of `GlErrors::get_gl_errors`: success, a `GlErrors` value carrying
the drained codes in order, or a Rust `panic!`. -/
inductive GetErrorsOutcome where
  | ok : GetErrorsOutcome
  | errs (codes : List Nat) : GetErrorsOutcome
  | panicked : GetErrorsOutcome
deriving DecidableEq, Repr

/-- The `loop` body of `get_gl_errors`: `q` is the pending error queue read by
successive `glGetError` calls, `acc` the `errors` vector accumulated so far.
Returns the final `errors` vector (`none` when the loop panicked) together
with the queue contents left after the loop exits. -/
def getErrorLoop (noError : Nat) : List Nat → List Nat → Option (List Nat) × List Nat
  | [], acc => (some acc, [])
  | e :: rest, acc =>
    if e = noError then (some acc, rest)
    else if e = 0 then (none, rest)
    else getErrorLoop noError rest (acc ++ [e])

/-- `GlErrors::get_gl_errors`, shallowly embedded over the pending error
queue.  Returns the outcome together with the error queue remaining after
the call. -/
def get_gl_errors (noError : Nat) (q : List Nat) : GetErrorsOutcome × List Nat :=
  match getErrorLoop noError q [] with
  | (some acc, q') => (if acc = [] then .ok else .errs acc, q')
  | (none, q') => (.panicked, q')

theorem getErrorLoop_all_valid (noError : Nat) :
    ∀ (q acc : List Nat), (∀ e ∈ q, e ≠ noError ∧ e ≠ 0) →
      getErrorLoop noError q acc = (some (acc ++ q), []) := by
  intro q
  induction q with
  | nil => intro acc _; simp [getErrorLoop]
  | cons e rest ih =>
    intro acc h
    have he := h e (by simp)
    have hrest : ∀ x ∈ rest, x ≠ noError ∧ x ≠ 0 := fun x hx => h x (by simp [hx])
    simp [getErrorLoop, he.1, he.2, ih (acc ++ [e]) hrest]

/-- C2: for every queue of genuine error codes (codes distinct from the
no-error constant and from the literal zero), `get_gl_errors` drains the
whole queue, succeeds iff the queue was empty, otherwise fails with exactly
the queued codes in their enqueued order, and leaves the queue empty. -/
theorem get_gl_errors_drains_in_order (noError : Nat) (q : List Nat)
    (h : ∀ e ∈ q, e ≠ noError ∧ e ≠ 0) :
    get_gl_errors noError q = ((if q = [] then .ok else .errs q), []) := by
  unfold get_gl_errors
  rw [getErrorLoop_all_valid noError q [] h]
  simp

/-- Witness for C2: two queued codes (`GL_INVALID_ENUM`, `GL_INVALID_OPERATION`)
are returned in order and the queue ends empty; the empty queue yields `ok`. -/
theorem get_gl_errors_drains_in_order_witness :
    get_gl_errors 0 [GL_INVALID_ENUM, GL_INVALID_OPERATION]
        = (.errs [GL_INVALID_ENUM, GL_INVALID_OPERATION], [])
      ∧ get_gl_errors 0 [] = (.ok, []) := by
  have h1 := get_gl_errors_drains_in_order 0 [GL_INVALID_ENUM, GL_INVALID_OPERATION]
    (by decide)
  have h2 := get_gl_errors_drains_in_order 0 [] (by decide)
  exact ⟨by simpa using h1, by simpa using h2⟩

theorem getErrorLoop_zero_not_collected (noError : Nat) :
    ∀ (q acc : List Nat), 0 ∉ acc →
      ∀ codes q', getErrorLoop noError q acc = (some codes, q') → 0 ∉ codes := by
  intro q
  induction q with
  | nil =>
    intro acc hacc codes q' h
    injection h with h1 h2
    injection h1 with h1
    exact h1 ▸ hacc
  | cons e rest ih =>
    intro acc hacc codes q' h
    by_cases he : e = noError
    · rw [getErrorLoop, if_pos he] at h
      injection h with h1 h2
      injection h1 with h1
      exact h1 ▸ hacc
    · by_cases he0 : e = 0
      · rw [getErrorLoop, if_neg he, if_pos he0] at h
        simp at h
      · rw [getErrorLoop, if_neg he, if_neg he0] at h
        exact ih (acc ++ [e]) (by simp [hacc, Ne.symm he0]) codes q' h

theorem getErrorLoop_zero_panics (noError : Nat) (hne : noError ≠ 0) :
    ∀ (pre rest acc : List Nat), (∀ e ∈ pre, e ≠ noError ∧ e ≠ 0) →
      getErrorLoop noError (pre ++ 0 :: rest) acc = (none, rest) := by
  intro pre
  induction pre with
  | nil =>
    intro rest acc _
    rw [List.nil_append, getErrorLoop, if_neg (Ne.symm hne), if_pos rfl]
  | cons e p ih =>
    intro rest acc h
    have he := h e (by simp)
    rw [List.cons_append, getErrorLoop, if_neg he.1, if_neg he.2]
    exact ih rest (acc ++ [e]) (fun x hx => h x (by simp [hx]))

/-- C8: when the no-error constant is distinct from zero, draining a queue
whose front segment holds genuine error codes followed by a literal 0 makes
`get_gl_errors` panic (process abort) instead of returning; and for any
queue and any no-error constant, a returned `GlErrors` list never contains
the code 0. -/
theorem get_gl_errors_zero_aborts (noError : Nat) (pre rest : List Nat)
    (hne : noError ≠ 0) (hpre : ∀ e ∈ pre, e ≠ noError ∧ e ≠ 0) :
    get_gl_errors noError (pre ++ 0 :: rest) = (.panicked, rest)
      ∧ ∀ (q codes q' : List Nat),
          get_gl_errors noError q = (.errs codes, q') → 0 ∉ codes := by
  constructor
  · unfold get_gl_errors
    rw [getErrorLoop_zero_panics noError hne pre rest [] hpre]
  · intro q codes q' h
    unfold get_gl_errors at h
    rcases hl : getErrorLoop noError q [] with ⟨acc?, qrem⟩
    rw [hl] at h
    rcases acc? with _ | acc
    · simp at h
    · by_cases hacc : acc = []
      · simp [hacc] at h
      · simp only [if_neg hacc] at h
        injection h with h1 h2
        injection h1 with h1
        exact h1 ▸ getErrorLoop_zero_not_collected noError q [] (by simp) acc qrem hl

/-- Witness for C8: with no-error constant 1, the queue
`[GL_INVALID_ENUM, 0, 5]` makes the collector panic after draining the
leading genuine code, leaving `[5]` pending. -/
theorem get_gl_errors_zero_aborts_witness :
    get_gl_errors 1 ([GL_INVALID_ENUM] ++ 0 :: [5]) = (.panicked, [5]) :=
  (get_gl_errors_zero_aborts 1 [GL_INVALID_ENUM] [5] (by decide) (by decide)).1

/-! ## GPU handle allocation model

`GlState` tracks the GPU-side handle namespace: a fresh-name counter and the
list of currently allocated handles.  `glCreate` models a successful
`glCreateShader` / `glCreateProgram` / `glCreateVertexArrays` /
`glCreateBuffers` call: it hands out the next fresh (nonzero) name.
`glDelete` models the corresponding `glDelete*` call: deleting name 0, or an
already-deleted name, is a no-op, as in OpenGL. -/

structure GlState where
  nextName : Nat
  allocated : List Nat
deriving DecidableEq, Repr

/-- Well-formedness: names start at 1, every allocated name is a previously
handed out nonzero name. -/
abbrev GlState.WF (s : GlState) : Prop :=
  0 < s.nextName ∧ ∀ n ∈ s.allocated, 0 < n ∧ n < s.nextName

def glCreate (s : GlState) : Nat × GlState :=
  (s.nextName, { nextName := s.nextName + 1, allocated := s.allocated ++ [s.nextName] })

def glDelete (n : Nat) (s : GlState) : GlState :=
  { s with allocated := s.allocated.erase n }

/-- Outcome of a Rust function: normal return, an `anyhow` error propagated
with `?`, or a `panic!`. -/
inductive RustOutcome (α : Type) where
  | ok (val : α)
  | err
  | panicked
deriving DecidableEq, Repr

theorem erase_append_fresh (l : List Nat) (a : Nat) (ha : a ∉ l) (t : List Nat) :
    (l ++ (a :: t)).erase a = l ++ t := by
  rw [List.erase_append_right _ ha, List.erase_cons_head]

/-! ## `GlShader::new` (`gl/gl_shader.rs`)

The fault oracle `f` gives the result of the error-queue drain after each
`try_gl!`-wrapped call, in order: `f 0` for `glCreateShader`, `f 1` for
`glShaderBinary`, `f 2` for `glSpecializeShaderARB`.  Early `Err` returns and
the `assert_eq!` panic drop `this`, which runs `glDeleteShader(this.raw)`. -/

structure GlShader where
  raw : Nat
deriving DecidableEq, Repr

def GlShader.new (f : Nat → Bool) (shader_type : Nat) (shader_binary : List Nat)
    (constant_indices constant_values : List Nat) (s : GlState) :
    RustOutcome GlShader × GlState :=
  -- let mut this = Self{raw: 0};
  -- this.raw = try_gl! { gl::CreateShader(shader_type) };
  if f 0 then (.err, glDelete 0 s)
  else
    let (raw, s) := glCreate s
    -- try_gl! { gl::ShaderBinary(..., shader_binary, ...) };
    if f 1 then (.err, glDelete raw s)
    -- assert_eq!(constant_indices.len(), constant_values.len());
    else if constant_indices.length ≠ constant_values.length then (.panicked, glDelete raw s)
    -- try_gl! { gl::SpecializeShaderARB(...) };
    else if f 2 then (.err, glDelete raw s)
    else (.ok ⟨raw⟩, s)

/-! ## `GlProgram::new` (`gl/gl_program.rs`) -/

structure GlProgram where
  raw : Nat
deriving DecidableEq, Repr

/-- The `for shader in shaders` loops of `GlProgram::new`: one
`try_gl!`-wrapped call (`glAttachShader` resp. `glDetachShader`) per shader,
none of which allocates or frees handles.  Returns the fault-oracle index
after the loop, or `none` when the error drain of some iteration failed. -/
def attachDetachLoop (f : Nat → Bool) (k : Nat) : List GlShader → Option Nat
  | [] => some k
  | _ :: rest => if f k then none else attachDetachLoop f (k + 1) rest

def GlProgram.new (f : Nat → Bool) (shaders : List GlShader) (s : GlState) :
    RustOutcome GlProgram × GlState :=
  -- let mut this = Self{raw: 0};
  -- this.raw = try_gl! { gl::CreateProgram() };
  if f 0 then (.err, glDelete 0 s)
  else
    let (raw, s) := glCreate s
    -- for shader in shaders { try_gl! { gl::AttachShader(this.raw, ...); } }
    match attachDetachLoop f 1 shaders with
    | none => (.err, glDelete raw s)
    | some k =>
      -- try_gl! { gl::LinkProgram(this.raw); }
      if f k then (.err, glDelete raw s)
      else
        -- for shader in shaders { try_gl! { gl::DetachShader(this.raw, ...); } }
        match attachDetachLoop f (k + 1) shaders with
        | none => (.err, glDelete raw s)
        | some _ => (.ok ⟨raw⟩, s)

namespace generic

/-! ## Generic mesh pipeline construction (`generic/mod.rs`) -/

structure Pipeline where
  program : Nat
  vertex_array : Nat
deriving DecidableEq, Repr

/-- `Pipeline::make_program`.  Fault-oracle indices in call order:
0 `glCreateShader`, 1 `glShaderBinary`, 2 `glSpecializeShaderARB`,
3 `glCreateProgram`, 4/5 `glAttachShader` (vertex, fragment),
6 `glLinkProgram`, 7/8 `glDetachShader` (fragment, vertex).  The local
vertex shader is deleted by `defer!` on every exit path after its creation;
the program name is stored in `self.program` and deleted only by the
`Pipeline` drop in `new`.  Returns (outcome, `self.program`, state). -/
def Pipeline.make_program (f : Nat → Bool) (s : GlState) :
    RustOutcome Unit × Nat × GlState :=
  if f 0 then (.err, 0, s)
  else
    let (vs, s) := glCreate s
    if f 1 then (.err, 0, glDelete vs s)
    else if f 2 then (.err, 0, glDelete vs s)
    else if f 3 then (.err, 0, glDelete vs s)
    else
      let (p, s) := glCreate s
      if f 4 then (.err, p, glDelete vs s)
      else if f 5 then (.err, p, glDelete vs s)
      else if f 6 then (.err, p, glDelete vs s)
      else if f 7 then (.err, p, glDelete vs s)
      else if f 8 then (.err, p, glDelete vs s)
      else (.ok (), p, glDelete vs s)

/-- `Pipeline::make_vertex_array`.  Fault-oracle indices `k` for
`glCreateVertexArrays` (out-parameter unwritten on fault), then `k+1`..`k+9`
for the three `glEnableVertexArrayAttrib`, three `glVertexArrayAttribBinding`
and three format calls, none of which allocates.  Returns (outcome,
`self.vertex_array`, state). -/
def Pipeline.make_vertex_array (f : Nat → Bool) (k : Nat) (s : GlState) :
    RustOutcome Unit × Nat × GlState :=
  if f k then (.err, 0, s)
  else
    let (vao, s) := glCreate s
    if f (k + 1) then (.err, vao, s)
    else if f (k + 2) then (.err, vao, s)
    else if f (k + 3) then (.err, vao, s)
    else if f (k + 4) then (.err, vao, s)
    else if f (k + 5) then (.err, vao, s)
    else if f (k + 6) then (.err, vao, s)
    else if f (k + 7) then (.err, vao, s)
    else if f (k + 8) then (.err, vao, s)
    else if f (k + 9) then (.err, vao, s)
    else (.ok (), vao, s)

/-- `Pipeline::new`: `make_program` (fault indices 0..8), then
`make_vertex_array` (fault indices 9..18).  An early `Err` drops `this`,
which runs `glDeleteProgram(self.program)` then
`glDeleteVertexArrays(1, &self.vertex_array)`. -/
def Pipeline.new (f : Nat → Bool) (s : GlState) : RustOutcome Pipeline × GlState :=
  match Pipeline.make_program f s with
  | (.ok _, prog, s) =>
    match Pipeline.make_vertex_array f 9 s with
    | (.ok _, vao, s) => (.ok ⟨prog, vao⟩, s)
    | (.err, vao, s) => (.err, glDelete vao (glDelete prog s))
    | (.panicked, vao, s) => (.panicked, glDelete vao (glDelete prog s))
  | (.err, prog, s) => (.err, glDelete 0 (glDelete prog s))
  | (.panicked, prog, s) => (.panicked, glDelete 0 (glDelete prog s))

end generic

theorem GlState.zero_notMem {s : GlState} (h : s.WF) : 0 ∉ s.allocated :=
  fun hm => absurd (h.2 0 hm).1 (lt_irrefl 0)

theorem GlState.nextName_notMem {s : GlState} (h : s.WF) : s.nextName ∉ s.allocated :=
  fun hm => absurd (h.2 _ hm).2 (lt_irrefl _)

theorem GlState.succ_notMem {s : GlState} (h : s.WF) (k : Nat) :
    s.nextName + k ∉ s.allocated :=
  fun hm => absurd (h.2 _ hm).2 (by omega)

/-- Case analysis of `Pipeline::make_program`: it either fails before
`glCreateProgram` succeeded (program field 0, allocations restored by the
`defer!`), fails afterwards (program name still allocated, to be released by
the `Pipeline` drop), or succeeds with the program name allocated. -/
theorem make_program_spec (f : Nat → Bool) (s : GlState) (hwf : s.WF) :
    (∃ t, generic.Pipeline.make_program f s = (.err, 0, t)
        ∧ t.allocated = s.allocated)
    ∨ (∃ t, generic.Pipeline.make_program f s = (.err, s.nextName + 1, t)
        ∧ t.allocated = s.allocated ++ [s.nextName + 1])
    ∨ (∃ t, generic.Pipeline.make_program f s = (.ok (), s.nextName + 1, t)
        ∧ t.allocated = s.allocated ++ [s.nextName + 1]
        ∧ t.nextName = s.nextName + 1 + 1) := by
  have hn0 : s.nextName ∉ s.allocated := GlState.nextName_notMem hwf
  by_cases h0 : f 0 = true
  · exact Or.inl ⟨s, by simp [generic.Pipeline.make_program, h0], rfl⟩
  by_cases h1 : f 1 = true
  · refine Or.inl ⟨⟨s.nextName + 1, s.allocated⟩, ?_, rfl⟩
    simp [generic.Pipeline.make_program, glCreate, glDelete, h0, h1,
      erase_append_fresh _ _ hn0]
  by_cases h2 : f 2 = true
  · refine Or.inl ⟨⟨s.nextName + 1, s.allocated⟩, ?_, rfl⟩
    simp [generic.Pipeline.make_program, glCreate, glDelete, h0, h1, h2,
      erase_append_fresh _ _ hn0]
  by_cases h3 : f 3 = true
  · refine Or.inl ⟨⟨s.nextName + 1, s.allocated⟩, ?_, rfl⟩
    simp [generic.Pipeline.make_program, glCreate, glDelete, h0, h1, h2, h3,
      erase_append_fresh _ _ hn0]
  by_cases h4 : f 4 = true
  · refine Or.inr (Or.inl ⟨⟨s.nextName + 1 + 1, s.allocated ++ [s.nextName + 1]⟩, ?_, rfl⟩)
    simp [generic.Pipeline.make_program, glCreate, glDelete, h0, h1, h2, h3, h4,
      erase_append_fresh _ _ hn0]
  by_cases h5 : f 5 = true
  · refine Or.inr (Or.inl ⟨⟨s.nextName + 1 + 1, s.allocated ++ [s.nextName + 1]⟩, ?_, rfl⟩)
    simp [generic.Pipeline.make_program, glCreate, glDelete, h0, h1, h2, h3, h4, h5,
      erase_append_fresh _ _ hn0]
  by_cases h6 : f 6 = true
  · refine Or.inr (Or.inl ⟨⟨s.nextName + 1 + 1, s.allocated ++ [s.nextName + 1]⟩, ?_, rfl⟩)
    simp [generic.Pipeline.make_program, glCreate, glDelete, h0, h1, h2, h3, h4, h5, h6,
      erase_append_fresh _ _ hn0]
  by_cases h7 : f 7 = true
  · refine Or.inr (Or.inl ⟨⟨s.nextName + 1 + 1, s.allocated ++ [s.nextName + 1]⟩, ?_, rfl⟩)
    simp [generic.Pipeline.make_program, glCreate, glDelete, h0, h1, h2, h3, h4, h5, h6,
      h7, erase_append_fresh _ _ hn0]
  by_cases h8 : f 8 = true
  · refine Or.inr (Or.inl ⟨⟨s.nextName + 1 + 1, s.allocated ++ [s.nextName + 1]⟩, ?_, rfl⟩)
    simp [generic.Pipeline.make_program, glCreate, glDelete, h0, h1, h2, h3, h4, h5, h6,
      h7, h8, erase_append_fresh _ _ hn0]
  · refine Or.inr (Or.inr ⟨⟨s.nextName + 1 + 1, s.allocated ++ [s.nextName + 1]⟩, ?_, rfl, rfl⟩)
    simp [generic.Pipeline.make_program, glCreate, glDelete, h0, h1, h2, h3, h4, h5, h6,
      h7, h8, erase_append_fresh _ _ hn0]

/-- Case analysis of `Pipeline::make_vertex_array`: it either fails at
`glCreateVertexArrays` (vertex-array field 0, state untouched), fails later
(vertex-array name still allocated, to be released by the `Pipeline` drop),
or succeeds. -/
theorem make_vertex_array_spec (f : Nat → Bool) (k : Nat) (t : GlState) :
    (generic.Pipeline.make_vertex_array f k t = (.err, 0, t))
    ∨ (∃ t2, generic.Pipeline.make_vertex_array f k t = (.err, t.nextName, t2)
        ∧ t2.allocated = t.allocated ++ [t.nextName])
    ∨ (∃ vao t2, generic.Pipeline.make_vertex_array f k t = (.ok (), vao, t2)) := by
  by_cases h0 : f k = true
  · exact Or.inl (by simp [generic.Pipeline.make_vertex_array, h0])
  by_cases h1 : f (k + 1) = true
  · refine Or.inr (Or.inl ⟨⟨t.nextName + 1, t.allocated ++ [t.nextName]⟩, ?_, rfl⟩)
    simp [generic.Pipeline.make_vertex_array, glCreate, h0, h1]
  by_cases h2 : f (k + 2) = true
  · refine Or.inr (Or.inl ⟨⟨t.nextName + 1, t.allocated ++ [t.nextName]⟩, ?_, rfl⟩)
    simp [generic.Pipeline.make_vertex_array, glCreate, h0, h1, h2]
  by_cases h3 : f (k + 3) = true
  · refine Or.inr (Or.inl ⟨⟨t.nextName + 1, t.allocated ++ [t.nextName]⟩, ?_, rfl⟩)
    simp [generic.Pipeline.make_vertex_array, glCreate, h0, h1, h2, h3]
  by_cases h4 : f (k + 4) = true
  · refine Or.inr (Or.inl ⟨⟨t.nextName + 1, t.allocated ++ [t.nextName]⟩, ?_, rfl⟩)
    simp [generic.Pipeline.make_vertex_array, glCreate, h0, h1, h2, h3, h4]
  by_cases h5 : f (k + 5) = true
  · refine Or.inr (Or.inl ⟨⟨t.nextName + 1, t.allocated ++ [t.nextName]⟩, ?_, rfl⟩)
    simp [generic.Pipeline.make_vertex_array, glCreate, h0, h1, h2, h3, h4, h5]
  by_cases h6 : f (k + 6) = true
  · refine Or.inr (Or.inl ⟨⟨t.nextName + 1, t.allocated ++ [t.nextName]⟩, ?_, rfl⟩)
    simp [generic.Pipeline.make_vertex_array, glCreate, h0, h1, h2, h3, h4, h5, h6]
  by_cases h7 : f (k + 7) = true
  · refine Or.inr (Or.inl ⟨⟨t.nextName + 1, t.allocated ++ [t.nextName]⟩, ?_, rfl⟩)
    simp [generic.Pipeline.make_vertex_array, glCreate, h0, h1, h2, h3, h4, h5, h6, h7]
  by_cases h8 : f (k + 8) = true
  · refine Or.inr (Or.inl ⟨⟨t.nextName + 1, t.allocated ++ [t.nextName]⟩, ?_, rfl⟩)
    simp [generic.Pipeline.make_vertex_array, glCreate, h0, h1, h2, h3, h4, h5, h6, h7, h8]
  by_cases h9 : f (k + 9) = true
  · refine Or.inr (Or.inl ⟨⟨t.nextName + 1, t.allocated ++ [t.nextName]⟩, ?_, rfl⟩)
    simp [generic.Pipeline.make_vertex_array, glCreate, h0, h1, h2, h3, h4, h5, h6, h7,
      h8, h9]
  · refine Or.inr (Or.inr ⟨t.nextName, ⟨t.nextName + 1, t.allocated ++ [t.nextName]⟩, ?_⟩)
    simp [generic.Pipeline.make_vertex_array, glCreate, h0, h1, h2, h3, h4, h5, h6, h7,
      h8, h9]

/-- C1: if construction of a `GlShader`, a `GlProgram`, or a generic
`Pipeline` (program plus vertex array) fails at any sub-step — any fault
oracle that makes the constructor return `Err` — the set of allocated GPU
handles after the failed call equals the set before it: every handle an
earlier sub-step allocated has been released on the error path. -/
theorem construction_releases_on_failure (f : Nat → Bool) (s : GlState) (hwf : s.WF) :
    (∀ st bin ci cv, (GlShader.new f st bin ci cv s).1 = .err →
        ((GlShader.new f st bin ci cv s).2).allocated = s.allocated)
    ∧ (∀ shaders, (GlProgram.new f shaders s).1 = .err →
        ((GlProgram.new f shaders s).2).allocated = s.allocated)
    ∧ ((generic.Pipeline.new f s).1 = .err →
        ((generic.Pipeline.new f s).2).allocated = s.allocated) := by
  have h0 : (0 : Nat) ∉ s.allocated := GlState.zero_notMem hwf
  have hn0 : s.nextName ∉ s.allocated := GlState.nextName_notMem hwf
  have hn1 : s.nextName + 1 ∉ s.allocated := GlState.succ_notMem hwf 1
  have hn2 : s.nextName + 1 + 1 ∉ s.allocated := GlState.succ_notMem hwf 2
  refine ⟨?_, ?_, ?_⟩
  · intro st bin ci cv
    simp only [GlShader.new, glCreate, glDelete]
    split_ifs <;>
      simp_all [List.erase_of_not_mem, erase_append_fresh]
  · intro shaders
    simp only [GlProgram.new, glCreate]
    split_ifs with hf0
    · simp [glDelete, List.erase_of_not_mem h0]
    · rcases hA : attachDetachLoop f 1 shaders with _ | k
      · simp only [hA]
        simp [glDelete, erase_append_fresh _ _ hn0]
      · simp only [hA]
        split_ifs with hk
        · simp [glDelete, erase_append_fresh _ _ hn0]
        · rcases hB : attachDetachLoop f (k + 1) shaders with _ | k2
          · simp only [hB]
            simp [glDelete, erase_append_fresh _ _ hn0]
          · simp only [hB]
            intro h
            simp at h
  · rcases make_program_spec f s hwf with ⟨t, hmp, ha⟩ | ⟨t, hmp, ha⟩ | ⟨t, hmp, ha, hnn⟩
    · simp only [generic.Pipeline.new, hmp]
      intro _
      simp [glDelete, ha, List.erase_of_not_mem h0]
    · simp only [generic.Pipeline.new, hmp]
      intro _
      simp [glDelete, ha, erase_append_fresh _ _ hn1, List.erase_of_not_mem h0]
    · rcases make_vertex_array_spec f 9 t with hmv | ⟨t2, hmv, ha2⟩ | ⟨vao, t2, hmv⟩
      · simp only [generic.Pipeline.new, hmp, hmv]
        intro _
        simp [glDelete, ha, erase_append_fresh _ _ hn1, List.erase_of_not_mem h0]
      · simp only [generic.Pipeline.new, hmp, hmv]
        intro _
        simp [glDelete, ha2, ha, hnn, erase_append_fresh _ _ hn1,
          erase_append_fresh _ _ hn2]
      · simp only [generic.Pipeline.new, hmp, hmv]
        intro h
        simp at h

/-- A fault oracle that fails the error drain after the second call of a
construction (call index 1) and no other. -/
def faultAt1 : Nat → Bool := fun k => k == 1

/-- A fault oracle under which every error drain succeeds. -/
def faultNone : Nat → Bool := fun _ => false

/-- Witness for C1: starting from the well-formed state with no allocated
handles, a fault at `glShaderBinary` makes `GlShader::new` fail and leaves
the allocated-handle list unchanged (empty). -/
theorem construction_releases_on_failure_witness :
    (GlShader.new faultAt1 0 [] [] [] ⟨1, []⟩).1 = .err
      ∧ ((GlShader.new faultAt1 0 [] [] [] ⟨1, []⟩).2).allocated = [] := by
  have h := construction_releases_on_failure faultAt1 ⟨1, []⟩ (by constructor <;> simp)
  exact ⟨by decide, h.1 0 [] [] [] (by decide)⟩

/-- C10: when `constant_indices` and `constant_values` have different
lengths, `GlShader::new` panics on the `assert_eq!` provided the two calls
before the assertion (`glCreateShader`, `glShaderBinary`) succeeded — and it
panics no matter what the later `glSpecializeShaderARB` drain would report;
if the `glShaderBinary` drain fails, the call returns `Err` without reaching
the assertion; and when the lengths are equal the assertion never fires, for
any fault oracle. -/
theorem GlShader_new_assert_lengths (f : Nat → Bool) (st : Nat)
    (bin ci cv : List Nat) (s : GlState) :
    (f 0 = false → f 1 = false → ci.length ≠ cv.length →
      (GlShader.new f st bin ci cv s).1 = .panicked)
    ∧ (f 0 = false → f 1 = true →
      (GlShader.new f st bin ci cv s).1 = .err)
    ∧ (ci.length = cv.length → (GlShader.new f st bin ci cv s).1 ≠ .panicked) := by
  refine ⟨?_, ?_, ?_⟩
  · intro h0 h1 hne
    simp [GlShader.new, glCreate, h0, h1, hne]
  · intro h0 h1
    simp [GlShader.new, glCreate, h0, h1]
  · intro heq
    simp only [GlShader.new, glCreate, heq]
    split_ifs <;> simp_all

/-- Witness for C10: with all drains succeeding, mismatched constant lists
(`[0]` vs `[]`) panic; equal-length lists (`[0]` vs `[7]`) never panic. -/
theorem GlShader_new_assert_lengths_witness :
    (GlShader.new faultNone 0 [] [0] [] ⟨1, []⟩).1 = .panicked
      ∧ (GlShader.new faultNone 0 [] [0] [7] ⟨1, []⟩).1 ≠ .panicked := by
  have h1 := GlShader_new_assert_lengths faultNone 0 [] [0] [] ⟨1, []⟩
  have h2 := GlShader_new_assert_lengths faultNone 0 [] [0] [7] ⟨1, []⟩
  exact ⟨h1.1 rfl rfl (by decide), h2.2.2 (by decide)⟩

/-! ## `GlBuffer<T>` (`gl/gl_buffer.rs`)

The buffer wrapper tracks `len`, the element count of the most recent
successful `upload`.  `upload(data, usage)` issues one `try_gl!`-wrapped
`glNamedBufferData` call (`fault` is the error-drain result of that call): on
success the GPU buffer contents are replaced wholesale and `self.len` is set
to `data.len()`; on failure the early `?` return skips the `self.len`
assignment, so `len` still reports the previous successful upload.  The
element type `T` is a phantom parameter of the Rust struct; here the data
slice is a `List α` and only its length is observable. -/

structure GlBuffer where
  raw : Nat
  len : Nat
deriving DecidableEq, Repr

def GlBuffer.upload {α : Type} (b : GlBuffer) (fault : Bool) (data : List α)
    (usage : Nat) : RustOutcome Unit × GlBuffer :=
  -- try_gl! { gl::NamedBufferData(self.raw, size_of_val(data), data, usage) };
  if fault then (.err, b)
  -- self.len = data.len();
  else (.ok (), { b with len := data.length })

/-- A sequence of `upload` calls: each entry is (the fault of that call, data,
usage hint). -/
def GlBuffer.uploadSeq {α : Type} (b : GlBuffer) :
    List (Bool × List α × Nat) → GlBuffer
  | [] => b
  | op :: rest => GlBuffer.uploadSeq (GlBuffer.upload b op.1 op.2.1 op.2.2).2 rest

/-- Taken from the specification wording, for comparison with
`GlBuffer.uploadSeq`: the declared length after a sequence of uploads is the
element count of the most recent successful upload (or the starting length
when none succeeded). -/
def specLastSuccessfulUploadLen {α : Type} (prev : Nat) :
    List (Bool × List α × Nat) → Nat
  | [] => prev
  | op :: rest => specLastSuccessfulUploadLen (if op.1 then prev else op.2.1.length) rest

theorem uploadSeq_len {α : Type} :
    ∀ (ops : List (Bool × List α × Nat)) (b : GlBuffer),
      (GlBuffer.uploadSeq b ops).len = specLastSuccessfulUploadLen b.len ops := by
  intro ops
  induction ops with
  | nil => intro b; rfl
  | cons op rest ih =>
    intro b
    rcases op with ⟨fault, data, usage⟩
    cases fault <;>
      simp [GlBuffer.uploadSeq, GlBuffer.upload, specLastSuccessfulUploadLen, ih]

/-- C4: a successful `upload(data, usage)` returns `Ok` and sets `len()` to
`data.len()` whatever the previous length was; a failed upload returns `Err`
and leaves `len()` at the previous value; consequently, after any sequence
of uploads `len()` is the element count of the most recent successful
upload. -/
theorem GlBuffer_upload_len {α : Type} (b : GlBuffer) (data : List α) (usage : Nat) :
    ((GlBuffer.upload b false data usage).1 = .ok ()
      ∧ (GlBuffer.upload b false data usage).2.len = data.length)
    ∧ ((GlBuffer.upload b true data usage).1 = .err
      ∧ (GlBuffer.upload b true data usage).2.len = b.len)
    ∧ (∀ ops : List (Bool × List α × Nat),
        (GlBuffer.uploadSeq b ops).len = specLastSuccessfulUploadLen b.len ops) := by
  refine ⟨⟨rfl, rfl⟩, ⟨rfl, rfl⟩, fun ops => uploadSeq_len ops b⟩

/-! ## Render-call traces

Per-frame rendering is modelled as the list of OpenGL calls a `render`
invocation issues when every call succeeds (`try_gl!` raising no error).
Matrix values (glam `Mat4`) stay symbolic: `Mat.mul a b` records that the
code computed the product `a * b`, `Mat.translation x y z` records
`Mat4::from_translation` of an integer vector (the exact `f32` values are
irrelevant to the claims, which constrain which expression is bound). -/

inductive Mat where
  | base (id : Nat)
  | mul (a b : Mat)
  | translation (x y z : Int)
deriving DecidableEq, Repr

/-- One OpenGL call as issued by the pipelines.  Integer arguments that the
code converts to `f32` (`Uniform2f`) are recorded as the original integers;
`transpose` booleans record `gl::FALSE` as `false`. -/
inductive GlCall where
  | useProgram (program : Nat)
  | bindVertexArray (array : Nat)
  | enable (cap : Nat)
  | cullFace (mode : Nat)
  | frontFace (mode : Nat)
  | uniform2f (location : Nat) (x y : Int)
  | uniformMatrix4 (location : Nat) (transpose : Bool) (value : Mat)
  | uniformMatrix4Array (location count : Nat) (transpose : Bool) (values : List Mat)
  | bindVertexBuffer (bindingindex buffer offset stride : Nat)
  | bindBuffer (target buffer : Nat)
  | drawElements (mode count : Nat)
  | drawArraysInstanced (mode first count primcount : Nat)
  | enableVertexArrayAttrib (vaobj attribindex : Nat)
  | vertexArrayAttribBinding (vaobj attribindex bindingindex : Nat)
  | vertexArrayAttribFormat (vaobj attribindex size ty : Nat) (normalized : Bool)
      (relativeoffset : Nat)
  | vertexArrayAttribIFormat (vaobj attribindex size ty relativeoffset : Nat)
  | vertexArrayBindingDivisor (vaobj bindingindex divisor : Nat)
deriving DecidableEq, Repr

def GlCall.isBindVertexBuffer : GlCall → Bool
  | .bindVertexBuffer _ _ _ _ => true
  | _ => false

def GlCall.isBindBuffer : GlCall → Bool
  | .bindBuffer _ _ => true
  | _ => false

def GlCall.isDrawElements : GlCall → Bool
  | .drawElements _ _ => true
  | _ => false

def GlCall.isDrawArraysInstanced : GlCall → Bool
  | .drawArraysInstanced _ _ _ _ => true
  | _ => false

def GlCall.isUniform2f : GlCall → Bool
  | .uniform2f _ _ _ => true
  | _ => false

def GlCall.isUniformMatrix4 : GlCall → Bool
  | .uniformMatrix4 _ _ _ => true
  | _ => false

def GlCall.isUniformMatrix4Array : GlCall → Bool
  | .uniformMatrix4Array _ _ _ _ => true
  | _ => false

def GlCall.isEnableVertexArrayAttrib : GlCall → Bool
  | .enableVertexArrayAttrib _ _ => true
  | _ => false

def GlCall.isVertexArrayAttribFormat : GlCall → Bool
  | .vertexArrayAttribFormat _ _ _ _ _ _ => true
  | _ => false

def GlCall.isVertexArrayBindingDivisor : GlCall → Bool
  | .vertexArrayBindingDivisor _ _ _ => true
  | _ => false

/-- The (attribute index, binding index) of a `glVertexArrayAttribBinding`
call. -/
def GlCall.attribBindingInfo : GlCall → Option (Nat × Nat)
  | .vertexArrayAttribBinding _ attribindex bindingindex => some (attribindex, bindingindex)
  | _ => none

/-- The (attribute index, size, type, relative offset) of a
`glVertexArrayAttribIFormat` call. -/
def GlCall.attribIFormatInfo : GlCall → Option (Nat × Nat × Nat × Nat)
  | .vertexArrayAttribIFormat _ attribindex size ty off => some (attribindex, size, ty, off)
  | _ => none

namespace generic

/-- `BONES` (`generic/mod.rs`): maximum number of bones supported, baked
into the vertex shader as specialization constant 0. -/
def BONES : Nat := 6

/-- `size_of::<Vertex>()`: `position: Vec3` (12 bytes) + `texcoord: Vec2`
(8 bytes) + `bone: u32` (4 bytes), `repr(C)`. -/
def vertex_stride : Nat := 12 + 8 + 4

/-- `Model` (`generic/mod.rs`): owned vertex/index buffer names and the
element count of the most recent `upload_indices`. -/
structure Model where
  vertex_buffer : Nat
  index_buffer : Nat
  index_count : Nat
deriving DecidableEq, Repr

/-- `Instance` (`generic/mod.rs`): model matrix plus bone matrix array
(`[Mat4; BONES]`, kept as a list here). -/
structure Instance where
  m_matrix : Mat
  bone_matrices : List Mat
deriving DecidableEq, Repr

/-- `Pipeline::pre_render`: select program and vertex array, configure
back-face culling with counter-clockwise front faces. -/
def Pipeline.pre_render (p : Pipeline) : List GlCall :=
  [.useProgram p.program,
   .bindVertexArray p.vertex_array,
   .enable GL_CULL_FACE,
   .cullFace GL_BACK,
   .frontFace GL_CCW]

/-- `Pipeline::pre_render_model`: bind the vertex buffer of the model to binding
0 with the `Vertex` stride, and its index buffer to `ELEMENT_ARRAY_BUFFER`. -/
def Pipeline.pre_render_model (model : Model) : List GlCall :=
  [.bindVertexBuffer 0 model.vertex_buffer 0 vertex_stride,
   .bindBuffer GL_ELEMENT_ARRAY_BUFFER model.index_buffer]

/-- `Pipeline::render_instance`: compute `mvp_matrix = vp_matrix *
instance.m_matrix`, bind it untransposed to uniform location 0, bind the
bone matrices of the instance (count `BONES`) untransposed to uniform location 1
in one `glUniformMatrix4fv` call, then draw the indices of the model as
triangles. -/
def Pipeline.render_instance (vp_matrix : Mat) (model : Model) (inst : Instance) :
    List GlCall :=
  [.uniformMatrix4 0 false (.mul vp_matrix inst.m_matrix),
   .uniformMatrix4Array 1 BONES false inst.bone_matrices,
   .drawElements GL_TRIANGLES model.index_count]

/-- `Pipeline::render`: `pre_render`, then for each (model, instances) pair
in order, `pre_render_model` followed by `render_instance` for each instance
in order. -/
def Pipeline.render (p : Pipeline) (vp_matrix : Mat)
    (models : List (Model × List Instance)) : List GlCall :=
  Pipeline.pre_render p
    ++ models.flatMap (fun pr =>
        Pipeline.pre_render_model pr.1
          ++ pr.2.flatMap (Pipeline.render_instance vp_matrix pr.1))

end generic

namespace trivial_block

/-- `Pipeline` (`trivial_block/mod.rs`): owned program and vertex array
names. -/
structure Pipeline where
  program : Nat
  vertex_array : Nat
deriving DecidableEq, Repr

/-- `size_of::<Face>()`: `xy: u8` + `zf: u8` + `u: u16` + `v: u16`,
`repr(C)`: 6 bytes. -/
def face_stride : Nat := 1 + 1 + 2 + 2

/-- `FaceSet` (`trivial_block/mod.rs`): owned face-record buffer name, the
face count of the most recent `set_data`, and the chunk-grid position. -/
structure FaceSet where
  buffer : Nat
  face_count : Nat
  chunk_position : Int × Int × Int
deriving DecidableEq, Repr

/-- The vertex-array configuration calls of
`Pipeline::make_vertex_array`, after `glCreateVertexArrays` produced `vao`:
enable attributes 0-3, associate them with binding 0, give them integer
formats at byte offsets 0, 1, 2, 4, and set divisor 4 on binding 0. -/
def Pipeline.make_vertex_array_calls (vao : Nat) : List GlCall :=
  [.enableVertexArrayAttrib vao 0,
   .enableVertexArrayAttrib vao 1,
   .enableVertexArrayAttrib vao 2,
   .enableVertexArrayAttrib vao 3,
   .vertexArrayAttribBinding vao 0 0,
   .vertexArrayAttribBinding vao 1 0,
   .vertexArrayAttribBinding vao 2 0,
   .vertexArrayAttribBinding vao 3 0,
   .vertexArrayAttribIFormat vao 0 1 GL_UNSIGNED_BYTE 0,
   .vertexArrayAttribIFormat vao 1 1 GL_UNSIGNED_BYTE 1,
   .vertexArrayAttribIFormat vao 2 1 GL_UNSIGNED_SHORT 2,
   .vertexArrayAttribIFormat vao 3 1 GL_UNSIGNED_SHORT 4,
   .vertexArrayBindingDivisor vao 0 4]

/-- `Pipeline::pre_render`: select program and vertex array, configure
culling, then bind the atlas size (converted to two `f32`s) to uniform
location 1 once for the whole call. -/
def Pipeline.pre_render (p : Pipeline) (atlas_size : Int × Int) : List GlCall :=
  [.useProgram p.program,
   .bindVertexArray p.vertex_array,
   .enable GL_CULL_FACE,
   .cullFace GL_BACK,
   .frontFace GL_CCW,
   .uniform2f 1 atlas_size.1 atlas_size.2]

/-- `Pipeline::render_one`: compute the chunk translation `16 *
chunk_position`, form `mvp_matrix = vp_matrix * Mat4::from_translation(...)`,
bind it untransposed to uniform location 2, bind the face buffer to binding
0 with the `Face` stride, and issue one instanced 4-vertex `TRIANGLE_FAN`
draw with `4 * face_count` instances. -/
def Pipeline.render_one (vp_matrix : Mat) (model : FaceSet) : List GlCall :=
  [.uniformMatrix4 2 false
      (.mul vp_matrix
        (.translation (16 * model.chunk_position.1)
          (16 * model.chunk_position.2.1)
          (16 * model.chunk_position.2.2))),
   .bindVertexBuffer 0 model.buffer 0 face_stride,
   .drawArraysInstanced GL_TRIANGLE_FAN 0 4 (4 * model.face_count)]

/-- `Pipeline::render`: `pre_render` with the atlas size, then `render_one`
per face set in order. -/
def Pipeline.render (p : Pipeline) (atlas_size : Int × Int) (vp_matrix : Mat)
    (models : List FaceSet) : List GlCall :=
  Pipeline.pre_render p atlas_size ++ models.flatMap (Pipeline.render_one vp_matrix)

end trivial_block

/-- C3: in a trivial-block `render` call, the instanced draws issued are
exactly one per `FaceSet` supplied, in order, each a 4-vertex
`TRIANGLE_FAN` with instance count `4 * face_count` — including
`face_count = 0`, which still issues its draw with zero instances. -/
theorem trivial_block_instance_count (p : trivial_block.Pipeline)
    (atlas_size : Int × Int) (vp_matrix : Mat) (models : List trivial_block.FaceSet) :
    (trivial_block.Pipeline.render p atlas_size vp_matrix models).filter
        GlCall.isDrawArraysInstanced
      = models.map (fun m =>
          GlCall.drawArraysInstanced GL_TRIANGLE_FAN 0 4 (4 * m.face_count)) := by
  have h : ∀ ms : List trivial_block.FaceSet,
      (ms.flatMap (trivial_block.Pipeline.render_one vp_matrix)).filter
          GlCall.isDrawArraysInstanced
        = ms.map (fun m =>
            GlCall.drawArraysInstanced GL_TRIANGLE_FAN 0 4 (4 * m.face_count)) := by
    intro ms
    induction ms with
    | nil => rfl
    | cons m rest ih =>
      rw [List.flatMap_cons, List.filter_append, ih]
      rfl
  show ((trivial_block.Pipeline.pre_render p atlas_size)
      ++ models.flatMap (trivial_block.Pipeline.render_one vp_matrix)).filter
        GlCall.isDrawArraysInstanced = _
  rw [List.filter_append, h models]
  rfl

/-- C7: in a trivial-block `render` call, restricted to atlas-size uniform
binds and instanced draws the trace is exactly one `glUniform2f` of the
atlas size at location 1 followed by every draw (so the atlas size is bound
once, before any face set); restricted to matrix uniform binds and draws it
is, per face set in order, the bind of `vp_matrix * translation(16 *
chunk_position)` untransposed at location 2 immediately before that face
draw of that face set. -/
theorem trivial_block_uniform_schedule (p : trivial_block.Pipeline)
    (atlas_size : Int × Int) (vp_matrix : Mat) (models : List trivial_block.FaceSet) :
    ((trivial_block.Pipeline.render p atlas_size vp_matrix models).filter
        (fun c => c.isUniform2f || c.isDrawArraysInstanced)
      = GlCall.uniform2f 1 atlas_size.1 atlas_size.2
          :: models.map (fun m =>
              GlCall.drawArraysInstanced GL_TRIANGLE_FAN 0 4 (4 * m.face_count)))
    ∧ ((trivial_block.Pipeline.render p atlas_size vp_matrix models).filter
        (fun c => c.isUniformMatrix4 || c.isDrawArraysInstanced)
      = models.flatMap (fun m =>
          [GlCall.uniformMatrix4 2 false
              (Mat.mul vp_matrix
                (Mat.translation (16 * m.chunk_position.1)
                  (16 * m.chunk_position.2.1) (16 * m.chunk_position.2.2))),
           GlCall.drawArraysInstanced GL_TRIANGLE_FAN 0 4 (4 * m.face_count)])) := by
  constructor
  · have h : ∀ ms : List trivial_block.FaceSet,
        (ms.flatMap (trivial_block.Pipeline.render_one vp_matrix)).filter
            (fun c => c.isUniform2f || c.isDrawArraysInstanced)
          = ms.map (fun m =>
              GlCall.drawArraysInstanced GL_TRIANGLE_FAN 0 4 (4 * m.face_count)) := by
      intro ms
      induction ms with
      | nil => rfl
      | cons m rest ih =>
        rw [List.flatMap_cons, List.filter_append, ih]
        rfl
    show ((trivial_block.Pipeline.pre_render p atlas_size)
        ++ models.flatMap (trivial_block.Pipeline.render_one vp_matrix)).filter
          (fun c => c.isUniform2f || c.isDrawArraysInstanced) = _
    rw [List.filter_append, h models]
    rfl
  · have h : ∀ ms : List trivial_block.FaceSet,
        (ms.flatMap (trivial_block.Pipeline.render_one vp_matrix)).filter
            (fun c => c.isUniformMatrix4 || c.isDrawArraysInstanced)
          = ms.flatMap (fun m =>
              [GlCall.uniformMatrix4 2 false
                  (Mat.mul vp_matrix
                    (Mat.translation (16 * m.chunk_position.1)
                      (16 * m.chunk_position.2.1) (16 * m.chunk_position.2.2))),
               GlCall.drawArraysInstanced GL_TRIANGLE_FAN 0 4 (4 * m.face_count)]) := by
      intro ms
      induction ms with
      | nil => rfl
      | cons m rest ih =>
        rw [List.flatMap_cons, List.filter_append, ih, List.flatMap_cons]
        rfl
    show ((trivial_block.Pipeline.pre_render p atlas_size)
        ++ models.flatMap (trivial_block.Pipeline.render_one vp_matrix)).filter
          (fun c => c.isUniformMatrix4 || c.isDrawArraysInstanced) = _
    rw [List.filter_append, h models]
    rfl

theorem generic_instances_filter_binds (vp_matrix : Mat) (model : generic.Model) :
    ∀ is : List generic.Instance,
      (is.flatMap (generic.Pipeline.render_instance vp_matrix model)).filter
          (fun c => c.isBindVertexBuffer || c.isBindBuffer || c.isDrawElements)
        = is.map (fun _ => GlCall.drawElements GL_TRIANGLES model.index_count) := by
  intro is
  induction is with
  | nil => rfl
  | cons i rest ih =>
    rw [List.flatMap_cons, List.filter_append, ih]
    rfl

theorem generic_instances_countP_bindVertexBuffer (vp_matrix : Mat)
    (model : generic.Model) :
    ∀ is : List generic.Instance,
      (is.flatMap (generic.Pipeline.render_instance vp_matrix model)).countP
          GlCall.isBindVertexBuffer = 0 := by
  intro is
  induction is with
  | nil => rfl
  | cons i rest ih =>
    rw [List.flatMap_cons, List.countP_append, ih]
    rfl

theorem generic_instances_countP_bindBuffer (vp_matrix : Mat) (model : generic.Model) :
    ∀ is : List generic.Instance,
      (is.flatMap (generic.Pipeline.render_instance vp_matrix model)).countP
          GlCall.isBindBuffer = 0 := by
  intro is
  induction is with
  | nil => rfl
  | cons i rest ih =>
    rw [List.flatMap_cons, List.countP_append, ih]
    rfl

/-- C5: in a generic `render` call, restricted to buffer binds and indexed
draws the trace is exactly, per (model, instance-list) pair in the order
given by the caller: one vertex-buffer bind, then one index-buffer bind, then one draw per
instance in order — so the buffers of each pair are bound exactly once, before any
of the instances of that pair; and the total bind counts equal the number of
pairs, independent of the instance counts. -/
theorem generic_binds_once_per_pair (p : generic.Pipeline) (vp_matrix : Mat)
    (models : List (generic.Model × List generic.Instance)) :
    ((generic.Pipeline.render p vp_matrix models).filter
        (fun c => c.isBindVertexBuffer || c.isBindBuffer || c.isDrawElements)
      = models.flatMap (fun pr =>
          GlCall.bindVertexBuffer 0 pr.1.vertex_buffer 0 generic.vertex_stride
            :: GlCall.bindBuffer GL_ELEMENT_ARRAY_BUFFER pr.1.index_buffer
            :: pr.2.map (fun _ => GlCall.drawElements GL_TRIANGLES pr.1.index_count)))
    ∧ (generic.Pipeline.render p vp_matrix models).countP GlCall.isBindVertexBuffer
        = models.length
    ∧ (generic.Pipeline.render p vp_matrix models).countP GlCall.isBindBuffer
        = models.length := by
  refine ⟨?_, ?_, ?_⟩
  · show ((generic.Pipeline.pre_render p) ++ _).filter _ = _
    rw [List.filter_append]
    have h : ∀ ms : List (generic.Model × List generic.Instance),
        (ms.flatMap (fun pr => generic.Pipeline.pre_render_model pr.1
            ++ pr.2.flatMap (generic.Pipeline.render_instance vp_matrix pr.1))).filter
              (fun c => c.isBindVertexBuffer || c.isBindBuffer || c.isDrawElements)
          = ms.flatMap (fun pr =>
              GlCall.bindVertexBuffer 0 pr.1.vertex_buffer 0 generic.vertex_stride
                :: GlCall.bindBuffer GL_ELEMENT_ARRAY_BUFFER pr.1.index_buffer
                :: pr.2.map (fun _ => GlCall.drawElements GL_TRIANGLES pr.1.index_count)) := by
      intro ms
      induction ms with
      | nil => rfl
      | cons pr rest ih =>
        rcases pr with ⟨m, is⟩
        rw [List.flatMap_cons, List.filter_append, List.filter_append,
          generic_instances_filter_binds vp_matrix m is, ih, List.flatMap_cons]
        rfl
    rw [h models]
    rfl
  · show ((generic.Pipeline.pre_render p) ++ _).countP _ = _
    rw [List.countP_append]
    have h : ∀ ms : List (generic.Model × List generic.Instance),
        (ms.flatMap (fun pr => generic.Pipeline.pre_render_model pr.1
            ++ pr.2.flatMap (generic.Pipeline.render_instance vp_matrix pr.1))).countP
              GlCall.isBindVertexBuffer = ms.length := by
      intro ms
      induction ms with
      | nil => rfl
      | cons pr rest ih =>
        rcases pr with ⟨m, is⟩
        rw [List.flatMap_cons, List.countP_append, List.countP_append,
          generic_instances_countP_bindVertexBuffer vp_matrix m is, ih, List.length_cons]
        show 1 + 0 + rest.length = rest.length + 1
        omega
    rw [h models]
    show 0 + models.length = models.length
    omega
  · show ((generic.Pipeline.pre_render p) ++ _).countP _ = _
    rw [List.countP_append]
    have h : ∀ ms : List (generic.Model × List generic.Instance),
        (ms.flatMap (fun pr => generic.Pipeline.pre_render_model pr.1
            ++ pr.2.flatMap (generic.Pipeline.render_instance vp_matrix pr.1))).countP
              GlCall.isBindBuffer = ms.length := by
      intro ms
      induction ms with
      | nil => rfl
      | cons pr rest ih =>
        rcases pr with ⟨m, is⟩
        rw [List.flatMap_cons, List.countP_append, List.countP_append,
          generic_instances_countP_bindBuffer vp_matrix m is, ih, List.length_cons]
        show 1 + 0 + rest.length = rest.length + 1
        omega
    rw [h models]
    show 0 + models.length = models.length
    omega

theorem generic_instances_countP_uniformArray (vp_matrix : Mat) (model : generic.Model) :
    ∀ is : List generic.Instance,
      (is.flatMap (generic.Pipeline.render_instance vp_matrix model)).countP
          GlCall.isUniformMatrix4Array = is.length := by
  intro is
  induction is with
  | nil => rfl
  | cons i rest ih =>
    rw [List.flatMap_cons, List.countP_append, ih, List.length_cons]
    show 1 + rest.length = rest.length + 1
    omega

/-- C6: for every instance of every (model, instance-list) pair passed to
the generic `render`, the trace contains the contiguous block: bind
`vp_matrix * m_matrix` untransposed to uniform location 0, bind the
whole bone-matrix array of the instance in a single matrix-array call with count
`BONES` (= 6) untransposed to location 1, then an indexed `TRIANGLES` draw
of the index count of the model; and the total number of matrix-array uniform
calls is exactly the total number of instances (one single call per
instance, not one per bone matrix). -/
theorem generic_per_instance_uniforms (p : generic.Pipeline) (vp_matrix : Mat)
    (models : List (generic.Model × List generic.Instance)) :
    (∀ (model : generic.Model) (is : List generic.Instance) (inst : generic.Instance),
        (model, is) ∈ models → inst ∈ is →
        ∃ l₁ l₂, generic.Pipeline.render p vp_matrix models
          = l₁ ++ (GlCall.uniformMatrix4 0 false (Mat.mul vp_matrix inst.m_matrix)
              :: GlCall.uniformMatrix4Array 1 generic.BONES false inst.bone_matrices
              :: [GlCall.drawElements GL_TRIANGLES model.index_count]) ++ l₂)
    ∧ generic.BONES = 6
    ∧ (generic.Pipeline.render p vp_matrix models).countP GlCall.isUniformMatrix4Array
        = (models.map (fun pr => pr.2.length)).sum := by
  refine ⟨?_, rfl, ?_⟩
  · intro model is inst hm hi
    obtain ⟨s1, s2, rfl⟩ := List.append_of_mem hm
    obtain ⟨u1, u2, rfl⟩ := List.append_of_mem hi
    refine ⟨generic.Pipeline.pre_render p
        ++ s1.flatMap (fun pr => generic.Pipeline.pre_render_model pr.1
            ++ pr.2.flatMap (generic.Pipeline.render_instance vp_matrix pr.1))
        ++ generic.Pipeline.pre_render_model model
        ++ u1.flatMap (generic.Pipeline.render_instance vp_matrix model),
      u2.flatMap (generic.Pipeline.render_instance vp_matrix model)
        ++ s2.flatMap (fun pr => generic.Pipeline.pre_render_model pr.1
            ++ pr.2.flatMap (generic.Pipeline.render_instance vp_matrix pr.1)), ?_⟩
    simp [generic.Pipeline.render, generic.Pipeline.render_instance,
      List.flatMap_append, List.flatMap_cons, List.append_assoc]
  · show ((generic.Pipeline.pre_render p) ++ _).countP _ = _
    rw [List.countP_append]
    have h : ∀ ms : List (generic.Model × List generic.Instance),
        (ms.flatMap (fun pr => generic.Pipeline.pre_render_model pr.1
            ++ pr.2.flatMap (generic.Pipeline.render_instance vp_matrix pr.1))).countP
              GlCall.isUniformMatrix4Array
          = (ms.map (fun pr => pr.2.length)).sum := by
      intro ms
      induction ms with
      | nil => rfl
      | cons pr rest ih =>
        rcases pr with ⟨m, is⟩
        rw [List.flatMap_cons, List.countP_append, List.countP_append,
          generic_instances_countP_uniformArray vp_matrix m is, ih, List.map_cons,
          List.sum_cons]
        show 0 + is.length + (rest.map (fun pr => pr.2.length)).sum
            = is.length + (rest.map (fun pr => pr.2.length)).sum
        omega
    rw [h models]
    show 0 + _ = _
    omega

/-- Witness for C6: a single pair with one instance; the trace contains its
uniform-and-draw block contiguously. -/
theorem generic_per_instance_uniforms_witness :
    ∃ l₁ l₂, generic.Pipeline.render ⟨1, 2⟩ (Mat.base 0)
        [(⟨3, 4, 9⟩, [⟨Mat.base 1, [Mat.base 2]⟩])]
      = l₁ ++ (GlCall.uniformMatrix4 0 false (Mat.mul (Mat.base 0) (Mat.base 1))
          :: GlCall.uniformMatrix4Array 1 generic.BONES false [Mat.base 2]
          :: [GlCall.drawElements GL_TRIANGLES 9]) ++ l₂ :=
  (generic_per_instance_uniforms ⟨1, 2⟩ (Mat.base 0)
      [(⟨3, 4, 9⟩, [⟨Mat.base 1, [Mat.base 2]⟩])]).1
    ⟨3, 4, 9⟩ [⟨Mat.base 1, [Mat.base 2]⟩] ⟨Mat.base 1, [Mat.base 2]⟩
    (by decide) (by decide)

/-- C9: the trivial-block vertex layout enables exactly four attributes, all
integer-typed (no float-format call is made), associates them with the single
binding 0, formats them as two unsigned bytes at offsets 0 and 1 and two
unsigned shorts at offsets 2 and 4, sets divisor 4 on binding 0 (and no
other divisor), the `Face` record stride is 6 bytes, and `render` binds each
buffer of each face set to binding 0 with that stride. -/
theorem trivial_block_vertex_layout (vao : Nat) :
    ((trivial_block.Pipeline.make_vertex_array_calls vao).countP
        GlCall.isEnableVertexArrayAttrib = 4)
    ∧ ((trivial_block.Pipeline.make_vertex_array_calls vao).filterMap
          GlCall.attribBindingInfo = [(0, 0), (1, 0), (2, 0), (3, 0)])
    ∧ ((trivial_block.Pipeline.make_vertex_array_calls vao).filterMap
          GlCall.attribIFormatInfo
        = [(0, 1, GL_UNSIGNED_BYTE, 0), (1, 1, GL_UNSIGNED_BYTE, 1),
           (2, 1, GL_UNSIGNED_SHORT, 2), (3, 1, GL_UNSIGNED_SHORT, 4)])
    ∧ ((trivial_block.Pipeline.make_vertex_array_calls vao).countP
        GlCall.isVertexArrayAttribFormat = 0)
    ∧ ((trivial_block.Pipeline.make_vertex_array_calls vao).filter
          GlCall.isVertexArrayBindingDivisor
        = [GlCall.vertexArrayBindingDivisor vao 0 4])
    ∧ trivial_block.face_stride = 6
    ∧ (∀ (p : trivial_block.Pipeline) (atlas_size : Int × Int) (vp_matrix : Mat)
          (models : List trivial_block.FaceSet) (m : trivial_block.FaceSet),
        m ∈ models →
        GlCall.bindVertexBuffer 0 m.buffer 0 trivial_block.face_stride
          ∈ trivial_block.Pipeline.render p atlas_size vp_matrix models) := by
  refine ⟨rfl, rfl, rfl, rfl, rfl, rfl, ?_⟩
  intro p atlas_size vp_matrix models m hm
  have hone : GlCall.bindVertexBuffer 0 m.buffer 0 trivial_block.face_stride
      ∈ trivial_block.Pipeline.render_one vp_matrix m := by
    simp [trivial_block.Pipeline.render_one]
  exact List.mem_append.mpr (Or.inr (List.mem_flatMap.mpr ⟨m, hm, hone⟩))

/-- Witness for C9: the buffer of a concrete face set is bound with the 6-byte
stride during `render`. -/
theorem trivial_block_vertex_layout_witness :
    GlCall.bindVertexBuffer 0 5 0 trivial_block.face_stride
      ∈ trivial_block.Pipeline.render ⟨1, 2⟩ (16, 8) (Mat.base 0)
          [⟨5, 3, (0, 0, 0)⟩] :=
  (trivial_block_vertex_layout 7).2.2.2.2.2.2 ⟨1, 2⟩ (16, 8) (Mat.base 0)
    [⟨5, 3, (0, 0, 0)⟩] ⟨5, 3, (0, 0, 0)⟩ (by decide)
